import Mathlib

/-!
Verification of the visual-regression-testing VS Code extension against its
natural-language specification.  The definitions below are a shallow
embedding of the TypeScript sources:

* `deriveFilename`      — the per-target reference-image filename derivation
                          embedded from the template test file generated by
                          `TestRunner.createTemplateTestFile`
                          (src/testRunner.ts, lines 317-322);
* `execAsyncModel`, `PlaywrightService.runTests`,
  `PlaywrightService.updateSnapshots`
                        — src/services/playwrightService.ts;
* `ServerService.*`     — src/services/serverService.ts;
* `TestRunner.runTest`  — src/testRunner.ts, with the external world
                          (git, ports, the external runner, user prompts)
                          represented by an oracle environment `RunEnv` and
                          an explicit `World` state carrying the active
                          branch, the tracked server handle, the temp
                          directories present on disk, and an event trace;
* `Controller.runWorkflow` — src/visualRegressionController.ts.
-/

namespace VisReg

/-! ## Filename derivation (template generated by createTemplateTestFile)

The generated Playwright test computes, for each target URL path:
```text
urlPath.replace(/^\x2f/, '').replace(/\x2f/g, '-').replace(/[^a-zA-Z0-9-_]/g, '_') or 'homepage'
```
Embedded here over `List Char` / `String`. -/

/-- A character matched by the character class `[a-zA-Z0-9-_]`. -/
def allowedChar (c : Char) : Bool :=
  ('a' ≤ c && c ≤ 'z') || ('A' ≤ c && c ≤ 'Z') || ('0' ≤ c && c ≤ '9') ||
    c = '-' || c = '_'

/-- `.replace(/^\x2f/, '')` — strip at most one leading slash. -/
def stripLeadingSlash : List Char → List Char
  | '/' :: rest => rest
  | l => l

/-- `.replace(/\x2f/g, '-')` — replace every slash with a hyphen. -/
def slashesToHyphens (l : List Char) : List Char :=
  l.map fun c => if c = '/' then '-' else c

/-- `.replace(/[^a-zA-Z0-9-_]/g, '_')` — replace every character outside the
class with an underscore. -/
def sanitizeChars (l : List Char) : List Char :=
  l.map fun c => if allowedChar c then c else '_'

/-- The filename pipeline of the generated test file, including the
JavaScript `or 'homepage'` fallback (the empty string is falsy). -/
def deriveFilename (urlPath : String) : String :=
  let r := sanitizeChars (slashesToHyphens (stripLeadingSlash urlPath.toList))
  if r.isEmpty then "homepage" else String.mk r

/-- Restatement of the specification's description as a single per-character
pass: strip one leading slash, then map `/` to `-`, keep `[A-Za-z0-9_-]`,
turn anything else into `_`; yield `homepage` when the result is empty. -/
def specFilename (urlPath : String) : String :=
  let r := (stripLeadingSlash urlPath.toList).map fun c =>
    if c = '/' then '-' else if allowedChar c then c else '_'
  if r.isEmpty then "homepage" else String.mk r

theorem sanitize_slash_fuse (l : List Char) :
    sanitizeChars (slashesToHyphens l) =
      l.map fun c => if c = '/' then '-' else if allowedChar c then c else '_' := by
  simp only [sanitizeChars, slashesToHyphens, List.map_map]
  refine List.map_congr_left fun c _ => ?_
  by_cases h : c = '/'
  · simp [h, allowedChar]
  · simp [h]

/-- C2: the per-target reference-image filename derivation is the pure
mapping described by the specification — strip one leading slash, slashes to
hyphens, characters outside `[A-Za-z0-9_-]` to underscores, and the literal
`homepage` when the result is empty — and in particular `/` maps to
`homepage`, `/a/b` to `a-b`, `/a?b` to `a_b`, and `""` to `homepage`. -/
theorem deriveFilename_spec :
    (∀ p : String, deriveFilename p = specFilename p) ∧
      deriveFilename "/" = "homepage" ∧
      deriveFilename "/a/b" = "a-b" ∧
      deriveFilename "/a?b" = "a_b" ∧
      deriveFilename "" = "homepage" := by
  refine ⟨fun p => ?_, by decide, by decide, by decide, by decide⟩
  simp only [deriveFilename, specFilename, sanitize_slash_fuse]

/-! ## PlaywrightService (src/services/playwrightService.ts)

`execAsync cmd` resolves with `{stdout, stderr}` when the child process
exits with code 0 and rejects with an error object carrying `message`,
`stdout` and `stderr` otherwise.  One runner invocation is abstracted by
the exit code and captured streams. -/

/-- One invocation of the external runner: its exit code, captured output
streams, and the `error.message` the promise rejection would carry. -/
structure ExecResult where
  exitCode : Nat
  stdout : String
  stderr : String
  errMessage : String
deriving DecidableEq, Repr

/-- The rejection value of `execAsync`: an error carrying the message and
the captured streams. -/
structure ExecFailure where
  message : String
  stdout : String
  stderr : String
deriving DecidableEq, Repr

/-- `promisify(exec)`: resolves with the streams on exit code 0, rejects
with an `ExecFailure` otherwise. -/
def execAsyncModel (r : ExecResult) : Except ExecFailure (String × String) :=
  if r.exitCode = 0 then .ok (r.stdout, r.stderr)
  else .error { message := r.errMessage, stdout := r.stdout, stderr := r.stderr }

/-- The `TestResult` interface of playwrightService.ts. -/
structure TestResult where
  success : Bool
  output : String
deriving DecidableEq, Repr

namespace PlaywrightService

/-- `PlaywrightService.runTests` (lines 51-92): awaits the runner and
returns `{success: true, output: stdout + stderr}`; the catch clause turns
a rejection into `{success: false, output: error.stdout + error.stderr}`.
Total by construction: no outcome is re-thrown. -/
def runTests (r : ExecResult) : TestResult :=
  match execAsyncModel r with
  | .ok (out, err) => { success := true, output := out ++ err }
  | .error e => { success := false, output := e.stdout ++ e.stderr }

/-- `PlaywrightService.updateSnapshots` (lines 15-49): awaits the runner;
the catch clause re-throws
`Error` with message
`"Playwright test failed: " ++ message ++ "\n" ++ (stderr or stdout or "")`
where the JavaScript `a || b` chain picks the first non-empty string. -/
def updateSnapshots (r : ExecResult) : Except String Unit :=
  match execAsyncModel r with
  | .ok _ => .ok ()
  | .error e =>
      .error ("Playwright test failed: " ++ e.message ++ "\n" ++
        (if e.stderr ≠ "" then e.stderr else if e.stdout ≠ "" then e.stdout else ""))

end PlaywrightService

/-- C4: the compare operation is total — a non-zero runner exit is returned,
not raised — with `success = (exit code == 0)` and the combined
`stdout ++ stderr` output preserved in the result in both cases. -/
theorem runTests_total_success_iff_exit_zero (r : ExecResult) :
    PlaywrightService.runTests r =
      { success := r.exitCode == 0, output := r.stdout ++ r.stderr } := by
  by_cases h : r.exitCode = 0 <;>
    simp [PlaywrightService.runTests, execAsyncModel, h]

/-- C5 counterexample: with exit code 1, stdout `"out"` and stderr `"err"`,
the raised error message does not carry the runner's combined output
`stdout ++ stderr` (indeed the stdout is dropped entirely once stderr is
non-empty), refuting the claim that the error carries the combined output. -/
theorem updateSnapshots_drops_stdout :
    PlaywrightService.updateSnapshots
        { exitCode := 1, stdout := "out", stderr := "err",
          errMessage := "Command failed" } =
      .error "Playwright test failed: Command failed\nerr" ∧
    ¬ ("out" ++ "err").toList <:+:
        ("Playwright test failed: Command failed\nerr").toList ∧
    ¬ "out".toList <:+: ("Playwright test failed: Command failed\nerr").toList := by
  refine ⟨rfl, by decide, by decide⟩

/-- C5 amended: the baseline-capture operation completes normally iff the
runner exits with code zero, and on a non-zero exit it fails with an error
that carries the runner's stderr — or, when stderr is empty, its stdout —
for diagnosis. -/
theorem updateSnapshots_ok_iff_exit_zero (r : ExecResult) :
    (PlaywrightService.updateSnapshots r = .ok () ↔ r.exitCode = 0) ∧
    (r.exitCode ≠ 0 → ∃ m, PlaywrightService.updateSnapshots r = .error m ∧
      (if r.stderr ≠ "" then r.stderr
       else if r.stdout ≠ "" then r.stdout else "").toList <:+: m.toList) := by
  constructor
  · by_cases h : r.exitCode = 0 <;>
      simp [PlaywrightService.updateSnapshots, execAsyncModel, h]
  · intro h
    refine ⟨"Playwright test failed: " ++ r.errMessage ++ "\n" ++
        (if r.stderr ≠ "" then r.stderr
         else if r.stdout ≠ "" then r.stdout else ""),
      by simp [PlaywrightService.updateSnapshots, execAsyncModel, h], ?_⟩
    have key : ∀ a b : String, a.toList <:+: (b ++ a).toList := by
      intro a b
      have : (b ++ a).toList = b.toList ++ a.toList := String.data_append b a
      rw [this]
      exact (List.suffix_append b.toList a.toList).isInfix
    exact key _ ("Playwright test failed: " ++ r.errMessage ++ "\n")

/-- Witness for `updateSnapshots_ok_iff_exit_zero` at a concrete failing
invocation. -/
theorem updateSnapshots_ok_iff_exit_zero_witness :
    ∃ m, PlaywrightService.updateSnapshots
        { exitCode := 2, stdout := "", stderr := "boom", errMessage := "failed" } =
        .error m ∧ "boom".toList <:+: m.toList := by
  have h := (updateSnapshots_ok_iff_exit_zero
    { exitCode := 2, stdout := "", stderr := "boom", errMessage := "failed" }).2
    (by decide)
  simpa using h

/-! ## ServerService (src/services/serverService.ts)

The supervisor tracks at most one child process (`serverProcess`).  The
outcome of each `lsof -ti:port` probe is supplied by an oracle indexed by
the probe count: `some out` models exit code 0 with stdout `out`, `none`
models the non-zero exit lsof uses for a free port. -/

/-- External outcomes consumed by the supervisor: the `i`-th port probe's
lsof result. -/
structure SrvEnv where
  lsofOut : Nat → Option String

/-- Supervisor state: the tracked child-process handle, the log of every
process spawned so far, the number of port probes made, and the pid the
next spawn would receive. -/
structure SrvState where
  serverProcess : Option Nat
  spawned : List Nat
  probes : Nat
  nextPid : Nat
deriving DecidableEq, Repr

namespace ServerService

/-- `String.prototype.trim()` on the probe's stdout, embedded over the
character list: whitespace removed from both ends. -/
def trimChars (l : List Char) : List Char :=
  ((l.dropWhile Char.isWhitespace).reverse.dropWhile Char.isWhitespace).reverse

/-- `isPortInUse` (lines 12-20): runs `lsof -ti:port`; true iff the command
exits 0 with non-empty trimmed stdout; a non-zero exit means the port is
free. -/
def isPortInUse (env : SrvEnv) (st : SrvState) : Bool × SrvState :=
  (match env.lsofOut st.probes with
   | some out => !(trimChars out.toList).isEmpty
   | none => false,
   { st with probes := st.probes + 1 })

/-- `stop` (lines 63-89): returns at once when no process is tracked;
otherwise kills the process group (falling back to killing the tracked
handle), awaits exit, and clears the handle.  The promise only ever
resolves, so `stop` is total. -/
def stop (st : SrvState) : SrvState :=
  match st.serverProcess with
  | none => st
  | some _ => { st with serverProcess := none }

/-- `start` (lines 22-61): probes the port first and rejects with the
port-conflict error when it is in use, before any spawn; otherwise stops a
still-tracked process and spawns the configured server command. -/
def start (env : SrvEnv) (st : SrvState) : Except String Unit × SrvState :=
  let probe := isPortInUse env st
  if probe.1 then
    (.error "Port is already in use", probe.2)
  else
    let st := if probe.2.serverProcess.isSome then stop probe.2 else probe.2
    (.ok (), { st with
      serverProcess := some st.nextPid,
      spawned := st.spawned ++ [st.nextPid],
      nextPid := st.nextPid + 1 })

end ServerService

/-- C3: when the probe finds the configured port already bound,
`ServerService.start` rejects with the port-conflict error, spawns no
process, and leaves the tracked handle unchanged (only the probe counter
advances). -/
theorem start_port_in_use_rejects (env : SrvEnv) (st : SrvState)
    (h : (ServerService.isPortInUse env st).1 = true) :
    ServerService.start env st =
      (.error "Port is already in use", (ServerService.isPortInUse env st).2) ∧
    ((ServerService.isPortInUse env st).2).serverProcess = st.serverProcess ∧
    ((ServerService.isPortInUse env st).2).spawned = st.spawned := by
  refine ⟨?_, rfl, rfl⟩
  simp only [ServerService.start, h]
  rfl

/-- Witness for `start_port_in_use_rejects`: a probe whose lsof call
returns the pid `"4242"` of a bound listener. -/
theorem start_port_in_use_rejects_witness :
    ServerService.start ⟨fun _ => some "4242"⟩
        { serverProcess := none, spawned := [], probes := 0, nextPid := 1 } =
      (.error "Port is already in use",
       { serverProcess := none, spawned := [], probes := 1, nextPid := 1 }) :=
  (start_port_in_use_rejects ⟨fun _ => some "4242"⟩
    { serverProcess := none, spawned := [], probes := 0, nextPid := 1 }
    (by decide)).1

/-- C8: `ServerService.stop` with no tracked process returns the state
unchanged (and, being a total function, resolves without error), and a
second `stop` after any completed `stop` is a no-op. -/
theorem stop_idempotent (st : SrvState) :
    (st.serverProcess = none → ServerService.stop st = st) ∧
    ServerService.stop (ServerService.stop st) = ServerService.stop st := by
  constructor
  · intro h
    simp [ServerService.stop, h]
  · cases h : st.serverProcess <;> simp [ServerService.stop, h]

/-- Witness for `stop_idempotent` at the stopped supervisor state. -/
theorem stop_idempotent_witness :
    ServerService.stop { serverProcess := none, spawned := [], probes := 0, nextPid := 1 } =
      { serverProcess := none, spawned := [], probes := 0, nextPid := 1 } :=
  (stop_idempotent _).1 rfl

/-! ## TestRunner.runTest (src/testRunner.ts)

The workflow orchestration.  The external world is abstracted by:

* `RunEnv` — oracles fixing every external outcome: whether the runner
  tooling probe succeeds, whether the test-specification check passes,
  the user's answer to the scaffold prompt, whether the workspace is a git
  repository, the success of the `n`-th `git checkout -f` (per target
  branch), the freeness of the port at the `i`-th pre-start probe, the
  exit codes of the two runner invocations, and the `Date.now()` stamp
  used for the temp-directory name;
* `World` — the externally visible state: active git branch, whether a
  server child process is live, the temp directories present on disk, and
  the ordered trace of observable actions (`Event`s) this run performed.

`TestRunner.runTest` calls `PlaywrightService.updateAllSnapshots`,
`PlaywrightService.runAllTests` and `ServerService.killPort`; those three
members are absent from src (only single-target variants exist there), so
they are modelled from the spec where marked below. -/

/-- The errors `runTest` can raise, named after the specification's error
taxonomy (the source throws plain `Error`s with messages). -/
inductive VErr where
  | playwrightMissing
  | noTestFiles
  | notGitRepo
  | vcs (branch : String)
  | portInUse
  | capture
deriving DecidableEq, Repr

/-- The specification's `SetupError` class: validation failures. -/
def VErr.isSetup : VErr → Bool
  | .playwrightMissing | .noTestFiles | .notGitRepo => true
  | _ => false

/-- Observable actions of one workflow run, in execution order. -/
inductive Event where
  | gitCmd (cmd : String)
  | checkoutDone (branch : String)
  | serverStarted
  | serverStopped
  | tempCreated (dir : String)
  | tempRemoved (dir : String)
  | baselineCaptured
  | comparisonRun
deriving DecidableEq, Repr

/-- Oracles fixing every external outcome of one run. -/
structure RunEnv where
  mainBranch : String
  playwrightInstalled : Bool
  testFilesPresent : Bool
  scaffoldAccepted : Bool
  isGitRepo : Bool
  checkoutOk : Nat → String → Bool
  portFree : Nat → Bool
  captureExitZero : Bool
  compareExitZero : Bool
  timestamp : Nat

/-- Externally visible state of the workspace during a run. -/
structure World where
  branch : String
  serverUp : Bool
  tempDirs : List String
  events : List Event
  checkoutCalls : Nat
  portProbes : Nat
deriving DecidableEq, Repr

/-- Append one observable action to the run's trace. -/
def emit (w : World) (e : Event) : World :=
  { w with events := w.events ++ [e] }

/-- Outcome of one `runTest` call: resolved with all targets matching,
resolved after the differences-detected dialogue, or rejected. -/
inductive RunOutcome where
  | passed
  | differences
  | failed (e : VErr)
deriving DecidableEq, Repr

namespace GitService

/-- `GitService.getCurrentBranch` (gitService.ts lines 99-106): runs
`git branch --show-current` and returns the trimmed stdout. -/
def getCurrentBranch (w : World) : String × World :=
  (w.branch, emit w (.gitCmd "branch --show-current"))

/-- `GitService.checkout` (gitService.ts lines 108-124): a best-effort
`git clean` of artifact directories (its failure is ignored), then
`git checkout -f branch`, which either switches the branch or rejects. -/
def checkout (env : RunEnv) (b : String) (w : World) : Except VErr Unit × World :=
  let n := w.checkoutCalls
  let w := emit w (.gitCmd "clean -fd test-results/ playwright-report/")
  let w := emit w (.gitCmd ("checkout -f " ++ b))
  let w := { w with checkoutCalls := n + 1 }
  if env.checkoutOk n b then
    (.ok (), emit { w with branch := b } (.checkoutDone b))
  else
    (.error (.vcs b), w)

/-- `GitService.clearSnapshots` (gitService.ts lines 126-136): best-effort
`rm -rf` of the reference-image directories; never throws, and neither the
branch, the server, nor the temp directories are touched. -/
def clearSnapshots (w : World) : World := w

/-- The unique temp-directory name
`/tmp/visual-regression-baseline-(Date.now())` of gitService.ts line 139. -/
def tmpDirName (env : RunEnv) : String :=
  "/tmp/visual-regression-baseline-" ++ toString env.timestamp

/-- `GitService.saveSnapshotsToTemp` (gitService.ts lines 138-151): creates
the uniquely named temp directory and best-effort copies the reference
images into it; returns the path even when the copy fails. -/
def saveSnapshotsToTemp (env : RunEnv) (w : World) : String × World :=
  let d := tmpDirName env
  (d, emit { w with tempDirs := d :: w.tempDirs } (.tempCreated d))

/-- `GitService.restoreSnapshotsFromTemp` (gitService.ts lines 153-163):
best-effort copy back over the reference-image directories; never throws,
and no modelled state changes. -/
def restoreSnapshotsFromTemp (_tmpDir : String) (w : World) : World := w

/-- `GitService.cleanupTemp` (gitService.ts lines 165-174): `rm -rf` of the
temp directory; failures are logged only, and `rm -rf` of a `/tmp` path
exits 0, so the directory is removed from the filesystem. -/
def cleanupTemp (d : String) (w : World) : World :=
  emit { w with tempDirs := w.tempDirs.filter (fun x => !(x == d)) } (.tempRemoved d)

end GitService

namespace TestRunner

/-- The in-run view of `ServerService.start`: pre-start port probe (oracle
`portFree` at the current probe index), rejecting on a bound port before
any spawn; otherwise stop a still-tracked process and spawn the server. -/
def serverStart (env : RunEnv) (w : World) : Except VErr Unit × World :=
  let i := w.portProbes
  let w := { w with portProbes := i + 1 }
  if env.portFree i then
    let w := if w.serverUp then emit { w with serverUp := false } .serverStopped else w
    (.ok (), emit { w with serverUp := true } .serverStarted)
  else
    (.error .portInUse, w)

/-- The in-run view of `ServerService.stop`: a no-op when nothing is
tracked, otherwise kills the process group and clears the handle; it never
rejects. -/
def serverStop (w : World) : World :=
  if w.serverUp then emit { w with serverUp := false } .serverStopped else w

/-- Modelled from the spec: `ServerService.killPort` is called by
`TestRunner.runTest` (testRunner.ts line 150) but absent from
src/services/serverService.ts.  Per spec section 4.2 it is a forceful
last-resort port reclaim used only during failure cleanup, bypassing the
normal stop handshake; it never throws and changes none of the modelled
state (the tracked handle was already cleared by the preceding `stop`). -/
def killPort (w : World) : World := w

/-- Modelled from the spec: `PlaywrightService.updateAllSnapshots` is
called by `TestRunner.runTest` (testRunner.ts line 87) but absent from
src/services/playwrightService.ts.  Per spec section 4.3
(`captureBaseline`) it invokes the runner in snapshot-update mode for the
full target set and must complete with exit code zero or the step fails. -/
def updateAllSnapshots (env : RunEnv) (w : World) : Except VErr Unit × World :=
  if env.captureExitZero then (.ok (), emit w .baselineCaptured)
  else (.error .capture, w)

/-- Modelled from the spec: `PlaywrightService.runAllTests` is called by
`TestRunner.runTest` (testRunner.ts line 118) but absent from
src/services/playwrightService.ts.  Per spec section 4.3 (`compare`) it
returns `success = (exit code == 0)` and never raises on a non-zero
exit. -/
def runAllTests (env : RunEnv) (w : World) : Bool × World :=
  (env.compareExitZero, emit w .comparisonRun)

/-- `TestRunner.validateSetup` (testRunner.ts lines 172-278), in execution
order: the runner-tooling probe (`npx playwright --version`, not a git
command), the test-specification check whose scaffold prompt throws when
declined, and last the repository check, which runs
`git rev-parse --git-dir` and throws when it fails. -/
def validateSetup (env : RunEnv) (w : World) : Except VErr Unit × World :=
  if !env.playwrightInstalled then
    (.error .playwrightMissing, w)
  else if !env.testFilesPresent && !env.scaffoldAccepted then
    (.error .noTestFiles, w)
  else
    let w := emit w (.gitCmd "rev-parse --git-dir")
    if env.isGitRepo then (.ok (), w) else (.error .notGitRepo, w)

/-- The `try` block of `runTest` (testRunner.ts lines 69-145): checkout of
the baseline branch, first server start, baseline capture, staging to
temp, stop, checkout back, restore, second start, comparison, stop.  The
third component is the `tmpDir` local: `""` until `saveSnapshotsToTemp`
assigns it. -/
def tryBlock (env : RunEnv) (origBranch : String) (w : World) :
    Except VErr Bool × World × String :=
  match GitService.checkout env env.mainBranch w with
  | (.error e, w) => (.error e, w, "")
  | (.ok _, w) =>
    match serverStart env w with
    | (.error e, w) => (.error e, w, "")
    | (.ok _, w) =>
      match updateAllSnapshots env w with
      | (.error e, w) => (.error e, w, "")
      | (.ok _, w) =>
        let p := GitService.saveSnapshotsToTemp env w
        let tmp := p.1
        let w := serverStop p.2
        match GitService.checkout env origBranch w with
        | (.error e, w) => (.error e, w, tmp)
        | (.ok _, w) =>
          let w := GitService.restoreSnapshotsFromTemp tmp w
          match serverStart env w with
          | (.error e, w) => (.error e, w, tmp)
          | (.ok _, w) =>
            let q := runAllTests env w
            let w := serverStop q.2
            (.ok q.1, w, tmp)

/-- The `catch` handler of `runTest` (testRunner.ts lines 146-157): stop
the server, forcibly reclaim the port, then attempt to checkout the
original branch, swallowing a secondary failure, before re-raising. -/
def catchCleanup (env : RunEnv) (origBranch : String) (w : World) : World :=
  let w := serverStop w
  let w := killPort w
  (GitService.checkout env origBranch w).2

/-- The `finally` clause of `runTest` (testRunner.ts lines 158-165):
delete the temp directory when one was assigned. -/
def finallyCleanup (tmp : String) (w : World) : World :=
  if tmp = "" then w else GitService.cleanupTemp tmp w

/-- `TestRunner.runTest` (testRunner.ts lines 33-166): validate, record
the original branch, clear old reference images, then the try/catch/
finally sequence above.  `urlPaths` affects only logging and the runner
invocations, which take the whole list. -/
def runTest (env : RunEnv) (_urlPaths : List String) (w : World) :
    RunOutcome × World :=
  match validateSetup env w with
  | (.error e, w) => (.failed e, w)
  | (.ok _, w) =>
    let p := GitService.getCurrentBranch w
    let origBranch := p.1
    let w := GitService.clearSnapshots p.2
    match tryBlock env origBranch w with
    | (.ok ok, w, tmp) =>
        ((if ok then .passed else .differences), finallyCleanup tmp w)
    | (.error e, w, tmp) =>
        (.failed e, finallyCleanup tmp (catchCleanup env origBranch w))

end TestRunner

/-- The temp-directory name is never the empty string, so the `finally`
clause's `if (tmpDir)` guard is taken whenever the directory was
created. -/
theorem tmpDirName_ne_empty (env : RunEnv) : GitService.tmpDirName env ≠ "" := by
  intro h
  have h2 := congrArg String.data h
  rw [GitService.tmpDirName, String.data_append] at h2
  exact absurd (List.append_eq_nil.mp h2).1 (by decide)

/-- Whether a run outcome is a rejection with a validation error. -/
def RunOutcome.isSetupFailure : RunOutcome → Bool
  | .failed e => e.isSetup
  | _ => false

/-- A workspace at rest before a run: on branch `feature`, no live server,
nothing staged in temp, empty trace. -/
def freshWorld : World :=
  { branch := "feature", serverUp := false, tempDirs := [], events := [],
    checkoutCalls := 0, portProbes := 0 }

/-- Environment for the branch-restoration counterexample: the checkout of
the baseline branch succeeds, the pre-start port probe finds the port
occupied (so the first server start throws), and the recovery checkout of
the original branch fails and is swallowed by the catch handler. -/
def strandedEnv : RunEnv :=
  { mainBranch := "main", playwrightInstalled := true,
    testFilesPresent := true, scaffoldAccepted := true, isGitRepo := true,
    checkoutOk := fun n _ => n == 0, portFree := fun _ => false,
    captureExitZero := true, compareExitZero := true, timestamp := 7 }

/-- C1 counterexample: when the rollback checkout of the original branch
itself fails during error cleanup, the run ends on the baseline branch
`main`, not on the original branch `feature` — the claimed invariant does
not cover a failing recovery checkout. -/
theorem runTest_branch_not_restored_cex :
    (TestRunner.runTest strandedEnv ["/"] freshWorld).1 =
      .failed .portInUse ∧
    ((TestRunner.runTest strandedEnv ["/"] freshWorld).2).branch = "main" ∧
    freshWorld.branch = "feature" := by
  decide

/-- C1 amended: for every valid non-empty target list, a run ends with the
active branch equal to the branch active before the call on every outcome
— success, detected differences, or thrown error — provided every
`git checkout` of the original branch succeeds (the rollback checkout can
itself fail, in which case the run is left on the baseline branch). -/
theorem runTest_restores_original_branch (env : RunEnv) (urlPaths : List String)
    (w : World) (_hne : urlPaths ≠ []) (hS : w.serverUp = false)
    (h : ∀ n, env.checkoutOk n w.branch = true) :
    ((TestRunner.runTest env urlPaths w).2).branch = w.branch := by
  by_cases hpw : env.playwrightInstalled <;>
  by_cases htf : env.testFilesPresent <;>
  by_cases hsa : env.scaffoldAccepted <;>
  by_cases hgr : env.isGitRepo <;>
  by_cases hc0 : env.checkoutOk w.checkoutCalls env.mainBranch <;>
  by_cases hp0 : env.portFree w.portProbes <;>
  by_cases hcap : env.captureExitZero <;>
  by_cases hp1 : env.portFree (w.portProbes + 1) <;>
    simp [TestRunner.runTest, TestRunner.validateSetup, TestRunner.tryBlock,
      TestRunner.serverStart, TestRunner.serverStop, TestRunner.killPort,
      TestRunner.updateAllSnapshots, TestRunner.runAllTests,
      TestRunner.catchCleanup, TestRunner.finallyCleanup,
      GitService.getCurrentBranch, GitService.checkout,
      GitService.clearSnapshots, GitService.saveSnapshotsToTemp,
      GitService.restoreSnapshotsFromTemp, GitService.cleanupTemp, emit,
      hpw, htf, hsa, hgr, hc0, hp0, hcap, hp1, hS, h, tmpDirName_ne_empty]

/-- Witness for `runTest_restores_original_branch`: a fully successful run
from branch `feature` ends back on `feature`. -/
theorem runTest_restores_original_branch_witness :
    ((TestRunner.runTest
        { mainBranch := "main", playwrightInstalled := true,
          testFilesPresent := true, scaffoldAccepted := true, isGitRepo := true,
          checkoutOk := fun _ _ => true, portFree := fun _ => true,
          captureExitZero := true, compareExitZero := true, timestamp := 7 }
        ["/"] freshWorld).2).branch = "feature" :=
  runTest_restores_original_branch _ _ _ (by decide) rfl (fun _ => rfl)

/-- Environment for the validation counterexample: runner tooling present,
test files present, but the workspace is not a git repository. -/
def notARepoEnv : RunEnv :=
  { mainBranch := "main", playwrightInstalled := true,
    testFilesPresent := true, scaffoldAccepted := true, isGitRepo := false,
    checkoutOk := fun _ _ => true, portFree := fun _ => true,
    captureExitZero := true, compareExitZero := true, timestamp := 7 }

/-- C6 counterexample: on the not-a-repository validation failure the run
does abort with a setup error, but a git command — the repository probe
`git rev-parse --git-dir` — has already run before the error is raised,
refuting the blanket "no git command runs" part of the claim. -/
theorem validation_failure_git_cmd_cex :
    (TestRunner.runTest notARepoEnv ["/"] freshWorld).1 = .failed .notGitRepo ∧
    Event.gitCmd "rev-parse --git-dir" ∈
      ((TestRunner.runTest notARepoEnv ["/"] freshWorld).2).events := by
  decide

/-- C6 amended: any validation failure — missing runner tooling, missing
test specification with the scaffold prompt declined, or not a
version-controlled repository — aborts the run with a setup error before
any mutation: no branch switch, no server start, no temp directory; the
final world is either untouched or extended only by the read-only
repository probe `git rev-parse --git-dir`, and for the missing-tooling
and declined-scaffold failures no git command runs at all. -/
theorem validation_failure_aborts_before_mutation (env : RunEnv)
    (urlPaths : List String) (w : World)
    (h : env.playwrightInstalled = false ∨
         (env.testFilesPresent = false ∧ env.scaffoldAccepted = false) ∨
         env.isGitRepo = false) :
    ((TestRunner.runTest env urlPaths w).1).isSetupFailure = true ∧
    ((TestRunner.runTest env urlPaths w).2 = w ∨
      (TestRunner.runTest env urlPaths w).2 =
        emit w (.gitCmd "rev-parse --git-dir")) ∧
    (env.playwrightInstalled = false ∨
        (env.testFilesPresent = false ∧ env.scaffoldAccepted = false) →
      (TestRunner.runTest env urlPaths w).2 = w) := by
  by_cases hpw : env.playwrightInstalled <;>
  by_cases htf : env.testFilesPresent <;>
  by_cases hsa : env.scaffoldAccepted <;>
  by_cases hgr : env.isGitRepo <;>
    simp_all [TestRunner.runTest, TestRunner.validateSetup,
      RunOutcome.isSetupFailure, VErr.isSetup, emit]

/-- Witness for `validation_failure_aborts_before_mutation`: missing
runner tooling aborts the run with the workspace untouched. -/
theorem validation_failure_aborts_before_mutation_witness :
    ((TestRunner.runTest
        { notARepoEnv with playwrightInstalled := false, isGitRepo := true }
        ["/"] freshWorld).1).isSetupFailure = true ∧
    (TestRunner.runTest
        { notARepoEnv with playwrightInstalled := false, isGitRepo := true }
        ["/"] freshWorld).2 = freshWorld := by
  have h := validation_failure_aborts_before_mutation
    { notARepoEnv with playwrightInstalled := false, isGitRepo := true }
    ["/"] freshWorld (Or.inl rfl)
  exact ⟨h.1, h.2.2 (Or.inl rfl)⟩

/-- C7: the temp staging directory of a run is absent from the filesystem
after the run completes on every exit path — success, detected
differences, or thrown error — and whenever the directory was created the
unconditional cleanup phase deleted it (the deletion event is in the
trace). -/
theorem runTest_temp_dir_cleanup (env : RunEnv) (urlPaths : List String)
    (w : World) (hS : w.serverUp = false) (hE : w.events = [])
    (hT : GitService.tmpDirName env ∉ w.tempDirs) :
    GitService.tmpDirName env ∉
      ((TestRunner.runTest env urlPaths w).2).tempDirs ∧
    (Event.tempCreated (GitService.tmpDirName env) ∈
        ((TestRunner.runTest env urlPaths w).2).events →
      Event.tempRemoved (GitService.tmpDirName env) ∈
        ((TestRunner.runTest env urlPaths w).2).events) := by
  by_cases hpw : env.playwrightInstalled <;>
  by_cases htf : env.testFilesPresent <;>
  by_cases hsa : env.scaffoldAccepted <;>
  by_cases hgr : env.isGitRepo <;>
  by_cases hc0 : env.checkoutOk w.checkoutCalls env.mainBranch <;>
  by_cases hp0 : env.portFree w.portProbes <;>
  by_cases hcap : env.captureExitZero <;>
  by_cases hc1 : env.checkoutOk (w.checkoutCalls + 1) w.branch <;>
  by_cases hp1 : env.portFree (w.portProbes + 1) <;>
    simp [TestRunner.runTest, TestRunner.validateSetup, TestRunner.tryBlock,
      TestRunner.serverStart, TestRunner.serverStop, TestRunner.killPort,
      TestRunner.updateAllSnapshots, TestRunner.runAllTests,
      TestRunner.catchCleanup, TestRunner.finallyCleanup,
      GitService.getCurrentBranch, GitService.checkout,
      GitService.clearSnapshots, GitService.saveSnapshotsToTemp,
      GitService.restoreSnapshotsFromTemp, GitService.cleanupTemp, emit,
      hpw, htf, hsa, hgr, hc0, hp0, hcap, hc1, hp1, hS, hE, hT,
      tmpDirName_ne_empty]

/-- Environment of an entirely successful run: every external operation
succeeds and the comparison detects no differences. -/
def allGoodEnv : RunEnv :=
  { mainBranch := "main", playwrightInstalled := true,
    testFilesPresent := true, scaffoldAccepted := true, isGitRepo := true,
    checkoutOk := fun _ _ => true, portFree := fun _ => true,
    captureExitZero := true, compareExitZero := true, timestamp := 7 }

/-- Witness for `runTest_temp_dir_cleanup`: a fully successful run leaves
no temp directory behind. -/
theorem runTest_temp_dir_cleanup_witness :
    GitService.tmpDirName allGoodEnv ∉
      ((TestRunner.runTest allGoodEnv ["/"] freshWorld).2).tempDirs :=
  (runTest_temp_dir_cleanup allGoodEnv ["/"] freshWorld rfl rfl (by decide)).1

/-! ## VisualRegressionController (src/visualRegressionController.ts)
and the command registrations of src/extension.ts -/

/-- User-visible actions of one `runWorkflow` invocation, in order. -/
inductive CtrlEvent where
  | warnedAlreadyRunning
  | statusRunning
  | statusIdle
  | statusSuccess
  | statusFailed
  | promptedMainBranch
  | promptedUncommitted
  | ranWorkflowCommand (cmd : String)
  | notified
  | showedReport
  | showedError
deriving DecidableEq, Repr

/-- Oracles for one `runWorkflow` invocation: whether the branch query
succeeds and what it returns, the user's prompt answers, the shelled-out
workflow command's success, and the notification setting. -/
structure CtrlEnv where
  branchQueryOk : Bool
  currentBranch : String
  proceedOnMain : Bool
  proceedWithChanges : Bool
  hasUncommitted : Bool
  commandSucceeds : Bool
  notifyOnCompletion : Bool
  showReportChosen : Bool

/-- Controller state: the workflow-in-progress guard flag. -/
structure CtrlState where
  isRunning : Bool
deriving DecidableEq, Repr

namespace Controller

/-- The `try`/`catch` body of `runWorkflow` (visualRegressionController.ts
lines 166-242): set the guard, show running status, query the branch
(whose failure is caught and reported), confirm on the main branch and on
uncommitted changes (either declination returns early with idle status),
shell out the workflow command via `runCommand` (which resolves with a
success flag and never rejects), and report the outcome. -/
def runWorkflowTry (env : CtrlEnv) (st : CtrlState) : CtrlState × List CtrlEvent :=
  let st := { st with isRunning := true }
  if !env.branchQueryOk then
    (st, [.statusRunning, .statusFailed, .showedError])
  else if env.currentBranch = "main" && !env.proceedOnMain then
    (st, [.statusRunning, .promptedMainBranch, .statusIdle])
  else
    let evs := [CtrlEvent.statusRunning] ++
      (if env.currentBranch = "main" then [CtrlEvent.promptedMainBranch] else [])
    if env.hasUncommitted && !env.proceedWithChanges then
      (st, evs ++ [.promptedUncommitted, .statusIdle])
    else
      let evs := evs ++
        (if env.hasUncommitted then [CtrlEvent.promptedUncommitted] else [])
      let evs := evs ++
        [.ranWorkflowCommand "npm run test:playwright:visual:workflow"]
      if env.commandSucceeds then
        (st, evs ++ [CtrlEvent.statusSuccess] ++
          (if env.notifyOnCompletion then
            [CtrlEvent.notified] ++
              (if env.showReportChosen then [CtrlEvent.showedReport] else [])
          else []))
      else
        (st, evs ++ [CtrlEvent.statusFailed, CtrlEvent.showedError] ++
          (if env.showReportChosen then [CtrlEvent.showedReport] else []))

/-- `VisualRegressionController.runWorkflow` (lines 158-246): the entry
guard rejects with a warning while `isRunning` is set; otherwise the body
runs and the `finally` clause clears `isRunning` on every exit path. -/
def runWorkflow (env : CtrlEnv) (st : CtrlState) : CtrlState × List CtrlEvent :=
  if st.isRunning then
    (st, [.warnedAlreadyRunning])
  else
    let r := runWorkflowTry env st
    ({ r.1 with isRunning := false }, r.2)

end Controller

namespace Extension

/-- The `visualRegression.runTest` command handler (extension.ts lines
46-104): parses the URL input, constructs fresh `GitService`,
`ServerService` and `PlaywrightService` instances and a fresh
`TestRunner`, and invokes `TestRunner.runTest` — without consulting the
controller's `isRunning` guard or any other in-progress marker. -/
def runTestCommand (ctrl : CtrlState) (env : RunEnv) (urlPaths : List String)
    (w : World) : CtrlState × RunOutcome × World :=
  (ctrl, TestRunner.runTest env urlPaths w)

end Extension

/-- C9 counterexample: with a workflow run in progress (`isRunning` set),
invoking the `visualRegression.runTest` command entry point is not
rejected — it performs the workflow's branch switches (both checkouts are
in its trace), refuting the claim that a second invocation of the workflow
entry point performs none of the workflow steps. -/
theorem second_invocation_not_rejected_cex :
    (Extension.runTestCommand { isRunning := true } allGoodEnv ["/"]
        freshWorld).1 = { isRunning := true } ∧
    Event.checkoutDone "main" ∈
      (Extension.runTestCommand { isRunning := true } allGoodEnv ["/"]
          freshWorld).2.2.events ∧
    Event.checkoutDone "feature" ∈
      (Extension.runTestCommand { isRunning := true } allGoodEnv ["/"]
          freshWorld).2.2.events := by
  decide

/-- C9 amended: the controller's `runWorkflow` entry point rejects a
second invocation while a run is in progress — it returns after only the
warning message, performing none of the workflow steps and leaving the
state unchanged; the `visualRegression.runTest` command entry point
carries no such guard. -/
theorem runWorkflow_guard_rejects (env : CtrlEnv) (st : CtrlState)
    (h : st.isRunning = true) :
    Controller.runWorkflow env st = (st, [CtrlEvent.warnedAlreadyRunning]) := by
  simp [Controller.runWorkflow, h]

/-- Witness for `runWorkflow_guard_rejects` at a busy controller. -/
theorem runWorkflow_guard_rejects_witness :
    Controller.runWorkflow
        { branchQueryOk := true, currentBranch := "feature",
          proceedOnMain := true, proceedWithChanges := true,
          hasUncommitted := false, commandSucceeds := true,
          notifyOnCompletion := false, showReportChosen := false }
        { isRunning := true } =
      ({ isRunning := true }, [CtrlEvent.warnedAlreadyRunning]) :=
  runWorkflow_guard_rejects _ _ rfl

/-- C10: `runWorkflow` clears `isRunning` on every exit path of the
executed body — success, either declined prompt, a failed command, and a
caught branch-query error — so a completed invocation never leaves the
controller rejecting subsequent runs: the next call is never answered with
the already-running warning. -/
theorem runWorkflow_clears_running_flag (env : CtrlEnv) (st : CtrlState)
    (h : st.isRunning = false) :
    ((Controller.runWorkflow env st).1).isRunning = false ∧
    ∀ env2 : CtrlEnv,
      (Controller.runWorkflow env2 (Controller.runWorkflow env st).1).2 ≠
        [CtrlEvent.warnedAlreadyRunning] := by
  constructor
  · simp [Controller.runWorkflow, h]
  · intro env2
    simp only [Controller.runWorkflow, h]
    simp only [Bool.false_eq_true, if_false]
    intro hcontra
    by_cases hb : env2.branchQueryOk <;>
    by_cases hm : env2.currentBranch = "main" <;>
    by_cases hpm : env2.proceedOnMain <;>
    by_cases hu : env2.hasUncommitted <;>
    by_cases hpc : env2.proceedWithChanges <;>
    by_cases hcs : env2.commandSucceeds <;>
    by_cases hn : env2.notifyOnCompletion <;>
    by_cases hsr : env2.showReportChosen <;>
      simp_all [Controller.runWorkflowTry]

/-- Witness for `runWorkflow_clears_running_flag`: an idle controller
stays reusable after a successful run. -/
theorem runWorkflow_clears_running_flag_witness :
    ((Controller.runWorkflow
        { branchQueryOk := true, currentBranch := "feature",
          proceedOnMain := true, proceedWithChanges := true,
          hasUncommitted := false, commandSucceeds := true,
          notifyOnCompletion := false, showReportChosen := false }
        { isRunning := false }).1).isRunning = false :=
  (runWorkflow_clears_running_flag _ _ rfl).1

end VisReg
